import Mathlib

/-!
Verification development for the Sigma Computing MCP server
(`sigma_mcp_server.py`). The definitions below are a shallow embedding of
the token manager of the server (`SigmaAPI.get_access_token`), its request
primitive (`SigmaAPI.make_request`) and the tool handlers of
`handle_call_tool` that the verified properties concern. Python values
are embedded as follows: optional arguments become `Option` fields
(`none` = key absent from the arguments mapping), Python truthiness
tests (`if x:`) become the explicit `strTruthy` / `intTruthy` /
`boolTruthy` functions, machine integers are unbounded `Int` (Python
integers are arbitrary precision), and `json.dumps(. , indent:=2)` is
reproduced by `pyJsonDumps` for ASCII data. Network interaction is
embedded by passing the upstream response (or an oracle from request
paths to responses) as an explicit argument.
-/

/-- Truthiness of a Python string-or-None value: `None` and the empty
string are falsy, every other string is truthy. -/
def strTruthy : Option String → Bool
  | some s => !(s == "")
  | none => false

/-- Truthiness of a Python int-or-None value: `None` and `0` are falsy. -/
def intTruthy : Option Int → Bool
  | some n => !(n == 0)
  | none => false

/-- Truthiness of a Python bool-or-None value: `None` and `False` are falsy. -/
def boolTruthy : Option Bool → Bool
  | some b => b
  | none => false

/-- JSON values as passed to `json.dumps` by the server. Python dicts
are embedded as ordered association lists, preserving insertion order. -/
inductive Json where
  | null : Json
  | bool : Bool → Json
  | num : Int → Json
  | str : String → Json
  | arr : List Json → Json
  | obj : List (String × Json) → Json
deriving Repr

/-- Escape a character the way `json.dumps` does for ASCII input. -/
def jsonEscapeChar (c : Char) : String :=
  if c == '"' then "\\\""
  else if c == '\\' then "\\\\"
  else if c == '\n' then "\\n"
  else if c == '\t' then "\\t"
  else if c == '\r' then "\\r"
  else String.singleton c

/-- Escape a string the way `json.dumps` does for ASCII input. -/
def jsonEscape (s : String) : String :=
  String.join (s.data.map jsonEscapeChar)

/-- Indentation produced by `json.dumps(. , indent:=2)` at nesting depth `d`. -/
def indentStr (d : Nat) : String :=
  String.join (List.replicate d "  ")

mutual

/-- Rendering of a JSON value by `json.dumps(. , indent:=2)`, at nesting
depth `d`. -/
def Json.dump (d : Nat) : Json → String
  | .null => "null"
  | .bool b => if b then "true" else "false"
  | .num n => toString n
  | .str s => "\"" ++ jsonEscape s ++ "\""
  | .arr xs =>
    match xs with
    | [] => "[]"
    | _ => "[\n" ++ Json.dumpArr (d + 1) xs ++ "\n" ++ indentStr d ++ "]"
  | .obj fs =>
    match fs with
    | [] => "\x7b\x7d"
    | _ => "\x7b\n" ++ Json.dumpObj (d + 1) fs ++ "\n" ++ indentStr d ++ "\x7d"

/-- Rendering of the elements of a JSON array, comma-and-newline separated. -/
def Json.dumpArr (d : Nat) : List Json → String
  | [] => ""
  | [j] => indentStr d ++ Json.dump d j
  | j :: rest => indentStr d ++ Json.dump d j ++ ",\n" ++ Json.dumpArr d rest

/-- Rendering of the fields of a JSON object, comma-and-newline separated. -/
def Json.dumpObj (d : Nat) : List (String × Json) → String
  | [] => ""
  | [(k, v)] => indentStr d ++ "\"" ++ jsonEscape k ++ "\": " ++ Json.dump d v
  | (k, v) :: rest =>
      indentStr d ++ "\"" ++ jsonEscape k ++ "\": " ++ Json.dump d v ++ ",\n"
        ++ Json.dumpObj d rest

end

/-- Embedding of `json.dumps(x, indent=2)` as used throughout the server. -/
def pyJsonDumps (j : Json) : String := Json.dump 0 j

/-- Dict-style lookup in an ordered association list (first match wins;
the dicts built by the server have unique keys). -/
def lookupKey {β : Type} (fs : List (String × β)) (k : String) : Option β :=
  match fs with
  | [] => none
  | (k2, v) :: rest => if k2 == k then some v else lookupKey rest k

/-- Python dict assignment `d[k] = v`: replaces the value in place if the
key exists, appends the pair otherwise. -/
def dictSet {β : Type} : List (String × β) → String → β → List (String × β)
  | [], k, v => [(k, v)]
  | (k2, v2) :: rest, k, v =>
      if k2 == k then (k, v) :: rest else (k2, v2) :: dictSet rest k v

/-- Decidable list-prefix test, used to embed the `"Error: "` prefix
convention on rendered tool results. -/
def listIsPrefixOf {α : Type} [BEq α] : List α → List α → Bool
  | [], _ => true
  | _ :: _, [] => false
  | a :: as, b :: bs => a == b && listIsPrefixOf as bs

/-- Decidable substring test on lists, embedding the Python `in` operator
on strings. -/
def listIsInfixOf {α : Type} [BEq α] : List α → List α → Bool
  | needle, [] => needle.isEmpty
  | needle, b :: tl =>
      listIsPrefixOf needle (b :: tl) || listIsInfixOf needle tl

/-- Embedding of Python `needle in hay` for strings. -/
def strContainsSub (hay needle : String) : Bool :=
  listIsInfixOf needle.data hay.data

/-- Embedding of Python `s.startswith(p)`. -/
def strStartsWith (s p : String) : Bool :=
  listIsPrefixOf p.data s.data

/-- Whitespace stripped by Python `str.strip()` (the ASCII cases). -/
def isSpaceChar (c : Char) : Bool :=
  c == ' ' || c == '\n' || c == '\t' || c == '\r'

/-- Drop leading whitespace from a character list. -/
def dropLeadingSpaces : List Char → List Char
  | [] => []
  | c :: rest => if isSpaceChar c then dropLeadingSpaces rest else c :: rest

/-- Embedding of Python `s.strip()` on ASCII data. -/
def pyStrip (s : String) : String :=
  ⟨dropLeadingSpaces ((dropLeadingSpaces s.data.reverse).reverse)⟩

/-- Test whether a rendered tool text begins with the `"Error: "` prefix
(the server convention for failure results). -/
def hasErrorPre (s : String) : Bool :=
  listIsPrefixOf "Error: ".data s.data

/-- The upstream HTTP response surface that `make_request` consumes:
`status` is the response status code, `contentType` is
`headers.get("content-type", "")`, `text` is the decoded `response.text`,
`contentLength` is `len(response.content)` (the byte size of the raw
body), and `jsonFields` is the mapping produced by `response.json()`
when the body is a JSON object. `errMessage` is the rendering
`str(HTTPStatusError)` httpx would produce for this response when
`raise_for_status` fires. -/
structure HttpResponse where
  status : Nat
  contentType : String := ""
  text : String := ""
  contentLength : Nat := 0
  jsonFields : List (String × Json) := []
  errMessage : String := ""

/-- Error raised by `response.raise_for_status()` for a non-2xx response,
as caught and rendered by the tool dispatcher. -/
structure UpstreamError where
  status : Nat
  message : String
deriving Repr, DecidableEq

/-- Success test of `raise_for_status`: httpx raises unless the status
code is in the 2xx range. -/
def isSuccessStatus (s : Nat) : Bool :=
  200 ≤ s && s < 300

/-- The four result shapes produced by `SigmaAPI.make_request`: the
dedicated 204 dict, a parsed JSON mapping, the text-body dict
`{"data": text, "content_type": ct, "size": n}`, and the binary-body
dict `{"data": bytes, "content_type": ct, "size": n}`. -/
inductive RequestResult where
  | notReady : RequestResult
  | jsonBody : List (String × Json) → RequestResult
  | textBody : String → String → Nat → RequestResult
  | binaryBody : String → Nat → RequestResult
deriving Repr

/-- Fields of the dict `make_request` returns for a 204 response. -/
def notReadyFields : List (String × Json) :=
  [("status", .str "not_ready"),
   ("message", .str "Export is still processing. Please wait and try again.")]

/-- Response classification of `SigmaAPI.make_request` (lines 92-101 of
the source): 204 first, then `content-type` dispatch by prefix. -/
def classifyResponse (r : HttpResponse) : RequestResult :=
  if r.status == 204 then .notReady
  else if strStartsWith r.contentType "application/json" then .jsonBody r.jsonFields
  else if strStartsWith r.contentType "text/" then
    .textBody r.contentType r.text r.contentLength
  else .binaryBody r.contentType r.contentLength

/-- Embedding of `SigmaAPI.make_request` on an upstream response:
`raise_for_status` turns a non-2xx response into an `UpstreamError`;
a 2xx response is classified by `classifyResponse`. -/
def makeRequest (r : HttpResponse) : Except UpstreamError RequestResult :=
  if isSuccessStatus r.status then .ok (classifyResponse r)
  else .error ⟨r.status, r.errMessage⟩

/-- The mutable token state of `SigmaAPI`: `accessToken` is
`self.access_token`, `tokenExpiresAt` is `self.token_expires_at`
(a clock value in minutes, or `none`). -/
structure TokenState where
  accessToken : Option String := none
  tokenExpiresAt : Option Nat := none
deriving Repr, DecidableEq

/-- The cached-token test on line 56 of the source:
`self.access_token and self.token_expires_at and datetime.now() < self.token_expires_at`
(a `datetime` object is always truthy, so the middle conjunct is a
None-test). -/
def hasValidCachedToken (st : TokenState) (now : Nat) : Bool :=
  strTruthy st.accessToken &&
    match st.tokenExpiresAt with
    | some e => now < e
    | none => false

/-- Outcome of the client-credentials exchange the token endpoint
performs when `get_access_token` misses its cache: either a 2xx response
carrying `access_token`, or an HTTP error status (on which
`raise_for_status` raises). -/
inductive TokenExchange where
  | success : String → TokenExchange
  | httpError : Nat → String → TokenExchange
deriving Repr, DecidableEq

/-- Result of one `get_access_token` call: the returned token (or the
propagated error message), the token state after the call, and the
number of network exchanges performed by the call. -/
structure TokenOutcome where
  result : Except String String
  state : TokenState
  exchanges : Nat
deriving Repr

/-- Embedding of `SigmaAPI.get_access_token` (lines 54-78 of the
source). Time is an explicit clock value in minutes;
`timedelta(minutes=55)` is the `+ 55`. The exchange outcome is passed
as an oracle argument; it is consulted (counted in `exchanges`) only
when the cached-token test fails. -/
def getAccessToken (st : TokenState) (now : Nat) (exchange : TokenExchange) :
    TokenOutcome :=
  if hasValidCachedToken st now then
    ⟨.ok (st.accessToken.getD ""), st, 0⟩
  else
    match exchange with
    | .httpError _ msg => ⟨.error msg, st, 1⟩
    | .success tok => ⟨.ok tok, ⟨some tok, some (now + 55)⟩, 1⟩

/-- Query-string building used by every list-style tool:
`"&".join([f"{k}={v}" for k, v in params.items()])`. -/
def joinQuery : List (String × String) → String
  | [] => ""
  | [kv] => kv.1 ++ "=" ++ kv.2
  | kv :: rest => kv.1 ++ "=" ++ kv.2 ++ "&" ++ joinQuery rest

/-- Arguments of the `sigma_list_workbooks` tool. -/
structure ListWorkbooksArgs where
  limit : Option Int := none
  page : Option String := none
deriving Repr, DecidableEq

/-- Query parameters built by `sigma_list_workbooks` (lines 805-812 of the
source): `limit` (default 50) always first, then `page` when truthy, in
dict insertion order. -/
def listWorkbooksParams (a : ListWorkbooksArgs) : List (String × String) :=
  [("limit", toString (a.limit.getD 50))] ++
    (if strTruthy a.page then [("page", a.page.getD "")] else [])

/-- The upstream path-and-query `sigma_list_workbooks` requests. -/
def listWorkbooksPath (a : ListWorkbooksArgs) : String :=
  "/v2/workbooks?" ++ joinQuery (listWorkbooksParams a)

/-- Arguments of the `sigma_export_workbook` tool. `workbook_id` is
`Option` because the source reads it with `arguments["workbook_id"]`,
which raises `KeyError` when absent. -/
structure ExportArgs where
  workbook_id : Option String := none
  element_id : Option String := none
  page_id : Option String := none
  format_type : Option String := none
  pdf_layout : Option String := none
  png_width : Option Int := none
  png_height : Option Int := none
  row_limit : Option Int := none
  offset : Option Int := none
deriving Repr, DecidableEq

/-- The effective format: `arguments.get("format_type", "pdf")`. -/
def exportFormatType (a : ExportArgs) : String :=
  a.format_type.getD "pdf"

/-- Export-mode inference (lines 846-851 of the source): a truthy
`element_id` wins, then a truthy `page_id`, else full-workbook mode. -/
def exportMode (a : ExportArgs) : String :=
  if strTruthy a.element_id then "element"
  else if strTruthy a.page_id then "page"
  else "workbook"

/-- The fail-fast validation message of line 855 of the source
(`export_mode.title()` on the single lowercase words used here is
`String.capitalize`). -/
def exportValidationMsg (mode fmt : String) : String :=
  "Error: " ++ mode.capitalize ++
    " exports only support pdf, png, or xlsx formats. Use element_id for "
    ++ fmt ++ " data exports."

/-- The `format` object of the export payload (lines 858-870 of the
source): `pdf` carries `layout` (default landscape), `png` carries
`pixelWidth`/`pixelHeight` when the corresponding argument is truthy,
every other format carries only `type`. -/
def exportFormatObj (a : ExportArgs) : List (String × Json) :=
  if exportFormatType a == "pdf" then
    [("type", .str "pdf"), ("layout", .str (a.pdf_layout.getD "landscape"))]
  else if exportFormatType a == "png" then
    [("type", .str "png")] ++
      (if intTruthy a.png_width then [("pixelWidth", .num (a.png_width.getD 0))] else []) ++
      (if intTruthy a.png_height then [("pixelHeight", .num (a.png_height.getD 0))] else [])
  else
    [("type", .str (exportFormatType a))]

/-- The export submission payload (lines 872-886 of the source): the
format object, then `elementId` or `pageId` (element wins), then
`rowLimit`/`offset` when truthy, and only in element mode. -/
def exportPayload (a : ExportArgs) : List (String × Json) :=
  [("format", .obj (exportFormatObj a))] ++
    (if strTruthy a.element_id then [("elementId", .str (a.element_id.getD ""))]
     else if strTruthy a.page_id then [("pageId", .str (a.page_id.getD ""))]
     else []) ++
    (if strTruthy a.element_id then
      (if intTruthy a.row_limit then [("rowLimit", .num (a.row_limit.getD 0))] else []) ++
        (if intTruthy a.offset then [("offset", .num (a.offset.getD 0))] else [])
     else [])

/-- What `sigma_export_workbook` does after mode inference: either it is
blocked by the format validation (returning the message with no network
request), or it submits the payload to the export endpoint. -/
inductive ExportAction where
  | blocked : String → ExportAction
  | submit : String → List (String × Json) → ExportAction
deriving Repr

/-- Embedding of the validation-and-submission decision of
`sigma_export_workbook` (lines 853-893 of the source), for a present
`workbook_id`. -/
def exportAction (wid : String) (a : ExportArgs) : ExportAction :=
  if (exportMode a == "page" || exportMode a == "workbook") &&
      (exportFormatType a == "csv" || exportFormatType a == "json" ||
        exportFormatType a == "jsonl") then
    .blocked (exportValidationMsg (exportMode a) (exportFormatType a))
  else
    .submit ("/v2/workbooks/" ++ wid ++ "/export") (exportPayload a)

/-- Exact text `sigma_download_export` returns on a `NotReady` result
(line 911 of the source). -/
def downloadNotReadyText : String :=
  "Export is still processing. Please wait a few seconds and try again."

/-- The `data.get("status") == "not_ready"` test of line 910 of the
source, on the mapping shapes `make_request` can return. -/
def statusIsNotReady (fs : List (String × Json)) : Bool :=
  match lookupKey fs "status" with
  | some (.str s) => s == "not_ready"
  | _ => false

/-- The inline-text summary for recognized text formats (line 921 of the
source). -/
def downloadInlineText (ct : String) (size : Nat) (content : String) : String :=
  "Content-Type: " ++ ct ++ "\nSize: " ++ toString size ++ " bytes\n\n" ++ content

/-- The non-inline text summary (line 923 of the source). -/
def downloadSummaryText (ct : String) (size : Nat) : String :=
  "Export downloaded. Content-Type: " ++ ct ++ ". Size: " ++ toString size ++ " bytes"

/-- The binary summary (line 927 of the source). -/
def downloadBinaryText (ct : String) (size : Nat) : String :=
  "Export downloaded (binary). Content-Type: " ++ ct ++ ". Size: " ++
    toString size ++ " bytes"

/-- The recognized-text-format test of line 920 of the source:
`"csv" in content_type or "json" in content_type or "text" in content_type`. -/
def isRecognizedTextFormat (ct : String) : Bool :=
  strContainsSub ct "csv" || strContainsSub ct "json" || strContainsSub ct "text"

/-- Rendering step of `sigma_download_export` (lines 909-930 of the
source) on a successful `make_request` result. The dict checks of the
source are evaluated on each result shape: the 204 dict carries
`status: "not_ready"`; the text dict carries a `str` under `"data"`;
the binary dict carries `bytes` under `"data"`; a parsed JSON mapping is
inspected for the same keys (the string case of `"content_type"` and the
numeric case of `"size"` are the ones a JSON mapping can carry). -/
def downloadExportRender : RequestResult → List String
  | .notReady => [downloadNotReadyText]
  | .jsonBody fs =>
    if statusIsNotReady fs then [downloadNotReadyText]
    else
      match lookupKey fs "data" with
      | some (.str content) =>
        let ct := match lookupKey fs "content_type" with
          | some (.str s) => s
          | _ => "unknown"
        let size : Int := match lookupKey fs "size" with
          | some (.num n) => n
          | _ => 0
        if isRecognizedTextFormat ct then
          ["Content-Type: " ++ ct ++ "\nSize: " ++ toString size ++ " bytes\n\n" ++ content]
        else
          ["Export downloaded. Content-Type: " ++ ct ++ ". Size: " ++ toString size ++ " bytes"]
      | _ => [pyJsonDumps (.obj fs)]
  | .textBody ct body size =>
    if isRecognizedTextFormat ct then [downloadInlineText ct size body]
    else [downloadSummaryText ct size]
  | .binaryBody ct size => [downloadBinaryText ct size]

/-- Embedding of the `sigma_download_export` tool on the upstream
response to `GET /v2/query/{query_id}/download`: an `UpstreamError` is
caught by the catch-all handler of the dispatcher and rendered with the `"Error: "`
prefix; otherwise the result is rendered by `downloadExportRender`. -/
def sigmaDownloadExport (r : HttpResponse) : List String :=
  match makeRequest r with
  | .error e => ["Error: " ++ e.message]
  | .ok res => downloadExportRender res

/-- One entry of the `grants` argument of `sigma_grant_permissions`.
`permission` is `Option` because the source reads `grant["permission"]`,
which raises `KeyError` when absent. -/
structure GrantInput where
  member_id : Option String := none
  team_id : Option String := none
  permission : Option String := none
  tag_id : Option String := none
deriving Repr, DecidableEq

/-- The `grantee` object of a transformed grant (lines 1051-1054 of the
source): a truthy `member_id` is checked first and produces `memberId`
alone; otherwise a truthy `team_id` produces `teamId` alone. -/
def grantGrantee (g : GrantInput) : List (String × Json) :=
  if strTruthy g.member_id then [("memberId", .str (g.member_id.getD ""))]
  else if strTruthy g.team_id then [("teamId", .str (g.team_id.getD ""))]
  else []

/-- The optional `tagId` field of a transformed grant (lines 1064-1065). -/
def grantTagPart (g : GrantInput) : List (String × Json) :=
  if strTruthy g.tag_id then [("tagId", .str (g.tag_id.getD ""))] else []

/-- The transformed grant object in API format (lines 1045-1065 of the
source). -/
def grantObjOf (g : GrantInput) (perm : String) : Json :=
  .obj ([("grantee", .obj (grantGrantee g)), ("permission", .str perm)] ++
    grantTagPart g)

/-- Exact text returned when a grant carries neither `member_id` nor
`team_id`: `json.dumps({"error": "Each grant must specify either member_id
or team_id"}, indent=2)` (lines 1056-1061 of the source). -/
def grantErrorJsonText : String :=
  pyJsonDumps (.obj [("error", .str "Each grant must specify either member_id or team_id")])

/-- Outcome of the grant-transformation loop of `sigma_grant_permissions`:
a `KeyError` on a missing `permission` (propagated to the catch-all
handler of the dispatcher), the in-loop return of the grantee validation error, or the
completed payload list. -/
inductive GrantsBuild where
  | keyError : String → GrantsBuild
  | granteeError : GrantsBuild
  | built : List Json → GrantsBuild
deriving Repr

/-- The grant-transformation loop (lines 1043-1067 of the source): grants
are processed in order and the first failing grant ends the call. -/
def buildGrantsPayload : List GrantInput → GrantsBuild
  | [] => .built []
  | g :: rest =>
    match g.permission with
    | none => .keyError "\x27permission\x27"
    | some perm =>
      if strTruthy g.member_id || strTruthy g.team_id then
        match buildGrantsPayload rest with
        | .built ps => .built (grantObjOf g perm :: ps)
        | e => e
      else .granteeError

/-- Embedding of the `sigma_grant_permissions` tool (lines 1038-1086 of
the source) for present `workbook_id` and `grants` arguments, on the
upstream response to the grants POST. On success the tool returns its
own summary dict, pretty-printed. -/
def sigmaGrantPermissions (wid : String) (grants : List GrantInput)
    (upstream : Except UpstreamError RequestResult) : List String :=
  match buildGrantsPayload grants with
  | .keyError k => ["Error: " ++ k]
  | .granteeError => [grantErrorJsonText]
  | .built ps =>
    match upstream with
    | .error e => ["Error: " ++ e.message]
    | .ok _ =>
      [pyJsonDumps (.obj
        [("success", .bool true), ("workbook_id", .str wid),
         ("grants_applied", .num ps.length), ("details", .arr ps)])]

/-- Arguments of the `sigma_list_grants` tool. -/
structure ListGrantsArgs where
  workbook_id : Option String := none
  user_id : Option String := none
  team_id : Option String := none
  limit : Option Int := none
  page : Option String := none
  direct_grants_only : Option Bool := none
deriving Repr, DecidableEq

/-- The filter portion of the `sigma_list_grants` query (lines 1093-1098
of the source): the first truthy one of `workbook_id` (as `inodeId`),
`user_id` (as `userId`), `team_id` (as `teamId`) is forwarded; the
others are dropped. -/
def listGrantsFilterParams (a : ListGrantsArgs) : List (String × String) :=
  if strTruthy a.workbook_id then [("inodeId", a.workbook_id.getD "")]
  else if strTruthy a.user_id then [("userId", a.user_id.getD "")]
  else if strTruthy a.team_id then [("teamId", a.team_id.getD "")]
  else []

/-- The full `sigma_list_grants` query parameters (lines 1090-1108 of the
source), in dict insertion order: filter, then `limit` (default 100),
then `page` when truthy, then `directGrantsOnly` when truthy. -/
def listGrantsParams (a : ListGrantsArgs) : List (String × String) :=
  listGrantsFilterParams a ++
    [("limit", toString (a.limit.getD 100))] ++
    (if strTruthy a.page then [("page", a.page.getD "")] else []) ++
    (if boolTruthy a.direct_grants_only then
      [("directGrantsOnly", if a.direct_grants_only.getD false then "true" else "false")]
     else [])

/-- The upstream path-and-query `sigma_list_grants` requests. -/
def listGrantsPath (a : ListGrantsArgs) : String :=
  "/v2/grants?" ++ joinQuery (listGrantsParams a)

/-- A grant entry of the upstream grants response, restricted to the
grantee fields the enhancement step reads. -/
structure GrantEntry where
  memberId : Option String := none
  teamId : Option String := none
deriving Repr, DecidableEq

/-- A member entry of the upstream members response, restricted to the
fields the name-resolution step reads. -/
structure Member where
  memberId : Option String := none
  email : Option String := none
  firstName : Option String := none
  lastName : Option String := none
deriving Repr, DecidableEq

/-- A team entry of the upstream teams response, restricted to the fields
the name-resolution step reads. -/
structure Team where
  teamId : Option String := none
  name : Option String := none
deriving Repr, DecidableEq

/-- The id-collection loop of lines 1119-1123 of the source: a truthy
`memberId` is collected first; otherwise a truthy `teamId` is collected
(sets are embedded as lists, membership being all that is consulted). -/
def collectGrantIds : List GrantEntry → List String × List String
  | [] => ([], [])
  | g :: rest =>
    let (ms, ts) := collectGrantIds rest
    if strTruthy g.memberId then ((g.memberId.getD "") :: ms, ts)
    else if strTruthy g.teamId then (ms, (g.teamId.getD "") :: ts)
    else (ms, ts)

/-- The display-name construction of lines 1133-1138 of the source:
`f"{first} {last} ({email})".strip()`, falling back to the bare email
when the stripped name starts with a parenthesis. -/
def memberDisplayName (first last email : String) : String :=
  let nm := pyStrip (first ++ " " ++ last ++ " (" ++ email ++ ")")
  if strStartsWith nm "(" then email else nm

/-- The member-name lookup dict built by lines 1130-1139 of the source,
as a loop over the fetched members with an accumulating dict. -/
def buildMemberNames (ids : List String) :
    List Member → List (String × String) → List (String × String)
  | [], acc => acc
  | m :: rest, acc =>
    match m.memberId with
    | some mid =>
      if ids.contains mid then
        buildMemberNames ids rest (dictSet acc mid
          (memberDisplayName (m.firstName.getD "") (m.lastName.getD "") (m.email.getD "")))
      else buildMemberNames ids rest acc
    | none => buildMemberNames ids rest acc

/-- The team-name lookup dict built by lines 1147-1151 of the source. -/
def buildTeamNames (ids : List String) :
    List Team → List (String × String) → List (String × String)
  | [], acc => acc
  | t :: rest, acc =>
    match t.teamId with
    | some tid =>
      if ids.contains tid then
        buildTeamNames ids rest (dictSet acc tid (t.name.getD "Unknown"))
      else buildTeamNames ids rest acc
    | none => buildTeamNames ids rest acc

/-- A grant entry after the enhancement loop of lines 1156-1168: the
original grantee fields plus the added `memberName` / `teamName` keys
(`none` when the loop did not add the key). -/
structure EnhancedGrant where
  memberId : Option String
  teamId : Option String
  memberName : Option String
  teamName : Option String
deriving Repr, DecidableEq

/-- Placeholder used when the `memberId` of a grant is not in the member-name
dict (lines 1159-1162 of the source). -/
def memberNotFoundText : String := "Unknown (member not found)"

/-- Placeholder used when the `teamId` of a grant is not in the team-name dict
(lines 1165-1168 of the source). -/
def teamNotFoundText : String := "Unknown (possibly All Members or system team)"

/-- The per-grant enhancement of lines 1156-1168 of the source: a truthy
`memberId` gets `memberName` (with the not-found placeholder as dict
default); otherwise a truthy `teamId` gets `teamName`. -/
def enhanceGrant (memberNames teamNames : List (String × String))
    (g : GrantEntry) : EnhancedGrant :=
  if strTruthy g.memberId then
    ⟨g.memberId, g.teamId,
      some ((lookupKey memberNames (g.memberId.getD "")).getD memberNotFoundText),
      none⟩
  else if strTruthy g.teamId then
    ⟨g.memberId, g.teamId, none,
      some ((lookupKey teamNames (g.teamId.getD "")).getD teamNotFoundText)⟩
  else ⟨g.memberId, g.teamId, none, none⟩

/-- The members fetch issued by the enhancement step (line 1129). -/
def membersFetchEndpoint : String := "/v2/members?limit=1000"

/-- The teams fetch issued by the enhancement step (line 1147). -/
def teamsFetchEndpoint : String := "/v2.1/teams?limit=1000"

/-- The member-name dict the enhancement step ends up with: empty when
no grant carries a truthy `memberId` (no fetch is issued) and empty when
the members fetch fails (the `except` of lines 1140-1141 swallows the
error); otherwise built from the fetched members. -/
def grantsMemberNames (entries : List GrantEntry)
    (mf : Except UpstreamError (List Member)) : List (String × String) :=
  let mids := (collectGrantIds entries).1
  if mids.isEmpty then []
  else
    match mf with
    | .ok ms => buildMemberNames mids ms []
    | .error _ => []

/-- The team-name dict the enhancement step ends up with (lines
1144-1153 of the source), with the same failure tolerance. -/
def grantsTeamNames (entries : List GrantEntry)
    (tf : Except UpstreamError (List Team)) : List (String × String) :=
  let tids := (collectGrantIds entries).2
  if tids.isEmpty then []
  else
    match tf with
    | .ok ts => buildTeamNames tids ts []
    | .error _ => []

/-- The whole enhancement step of `sigma_list_grants` (lines 1113-1168 of
the source) on the grants entries, given the outcomes of the two
secondary fetches. -/
def listGrantsEnhance (entries : List GrantEntry)
    (mf : Except UpstreamError (List Member))
    (tf : Except UpstreamError (List Team)) : List EnhancedGrant :=
  entries.map (enhanceGrant (grantsMemberNames entries mf) (grantsTeamNames entries tf))

/-- The grants response consumed by `sigma_list_grants`: `entries` is
`some` exactly when the `"entries"` key is present in the response
mapping; `rest` carries the remaining top-level fields. -/
structure GrantsResponse where
  entries : Option (List GrantEntry) := none
  rest : List (String × Json) := []
deriving Repr

/-- Outcome of a `sigma_list_grants` call: an error text (the upstream
error caught by the catch-all handler of the dispatcher), the enhanced grants, or a
response without an `"entries"` key returned untouched. -/
inductive ListGrantsOutcome where
  | errText : String → ListGrantsOutcome
  | okGrants : List EnhancedGrant → ListGrantsOutcome
  | okOther : List (String × Json) → ListGrantsOutcome
deriving Repr

/-- Embedding of the `sigma_list_grants` tool (lines 1088-1170 of the
source): the grants fetch feeds the enhancement step, which consults the
two secondary-fetch oracles at their fixed limit-1000 endpoints. A
failing secondary fetch is swallowed inside the enhancement; only a
failing grants fetch produces an error outcome. -/
def sigmaListGrantsOutcome (grantsResp : Except UpstreamError GrantsResponse)
    (fetchMembers : String → Except UpstreamError (List Member))
    (fetchTeams : String → Except UpstreamError (List Team)) : ListGrantsOutcome :=
  match grantsResp with
  | .error e => .errText ("Error: " ++ e.message)
  | .ok resp =>
    match resp.entries with
    | none => .okOther resp.rest
    | some entries =>
      .okGrants (listGrantsEnhance entries (fetchMembers membersFetchEndpoint)
        (fetchTeams teamsFetchEndpoint))

/-- The `make_request` result as the Python value handed to
`json.dumps`: `none` for the binary dict, whose `bytes` value is not
JSON serializable (`json.dumps` then raises `TypeError`, caught by the
catch-all handler of the dispatcher). -/
def RequestResult.toPyValue : RequestResult → Option (List (String × Json))
  | .notReady => some notReadyFields
  | .jsonBody fs => some fs
  | .textBody ct body size =>
    some [("data", .str body), ("content_type", .str ct), ("size", .num size)]
  | .binaryBody _ _ => none

/-- The `str(TypeError)` CPython produces when `json.dumps` meets a
`bytes` value, as rendered by the catch-all handler of the dispatcher. -/
def bytesTypeErrorText : String :=
  "Error: Object of type bytes is not JSON serializable"

/-- Rendering of a successful `make_request` result as the single
`json.dumps(data, indent=2)` text block most tools return. -/
def renderResult (res : RequestResult) : List String :=
  match res.toPyValue with
  | some fs => [pyJsonDumps (.obj fs)]
  | none => [bytesTypeErrorText]

/-- Rendering of a successful export submission (lines 895-899 of the
source): `data.update({"export_mode": mode, "format": format})`, then
`json.dumps(data, indent=2)`. -/
def exportRender (a : ExportArgs) (res : RequestResult) : List String :=
  match res.toPyValue with
  | some fs =>
    [pyJsonDumps (.obj (dictSet (dictSet fs "export_mode" (.str (exportMode a)))
      "format" (.str (exportFormatType a))))]
  | none => [bytesTypeErrorText]

/-- An enhanced grant as the mapping `json.dumps` renders: the original
grantee keys plus the appended name keys (dict assignment appends new
keys at the end). -/
def EnhancedGrant.toJson (g : EnhancedGrant) : Json :=
  .obj ((match g.memberId with | some m => [("memberId", Json.str m)] | none => []) ++
    (match g.teamId with | some t => [("teamId", Json.str t)] | none => []) ++
    (match g.memberName with | some n => [("memberName", Json.str n)] | none => []) ++
    (match g.teamName with | some n => [("teamName", Json.str n)] | none => []))

/-- One inbound tool call of the modelled subset of `handle_call_tool`,
carrying its arguments mapping and the upstream outcome(s) the call
would observe. Required arguments are `Option` fields: `none` embeds a
mapping missing the key, on which the subscript in the source raises
`KeyError` (caught by the catch-all handler of the dispatcher). -/
inductive ToolCall where
  | listWorkbooks : ListWorkbooksArgs → Except UpstreamError RequestResult → ToolCall
  | exportWorkbook : ExportArgs → Except UpstreamError RequestResult → ToolCall
  | downloadExport : Option String → HttpResponse → ToolCall
  | grantPermissions : Option String → Option (List GrantInput) →
      Except UpstreamError RequestResult → ToolCall
  | listGrants : ListGrantsArgs → Except UpstreamError GrantsResponse →
      (String → Except UpstreamError (List Member)) →
      (String → Except UpstreamError (List Team)) → ToolCall
  | unknownTool : String → ToolCall

/-- Embedding of `handle_call_tool` (lines 797-1362 of the source) for
the modelled tools. Every branch, the catch-all `except` included,
returns a list of text blocks; exceptions (`KeyError`, upstream errors,
the unknown-tool `ValueError`) are rendered as `"Error: " + str(e)`. -/
def handleCallTool : ToolCall → List String
  | .listWorkbooks _ (.error e) => ["Error: " ++ e.message]
  | .listWorkbooks _ (.ok res) => renderResult res
  | .exportWorkbook a up =>
    match a.workbook_id with
    | none => ["Error: \x27workbook_id\x27"]
    | some wid =>
      match exportAction wid a with
      | .blocked msg => [msg]
      | .submit _ _ =>
        match up with
        | .error e => ["Error: " ++ e.message]
        | .ok res => exportRender a res
  | .downloadExport qid resp =>
    match qid with
    | none => ["Error: \x27query_id\x27"]
    | some _ => sigmaDownloadExport resp
  | .grantPermissions wid grants up =>
    match wid with
    | none => ["Error: \x27workbook_id\x27"]
    | some w =>
      match grants with
      | none => ["Error: \x27grants\x27"]
      | some gs => sigmaGrantPermissions w gs up
  | .listGrants _ grantsResp fm ft =>
    match sigmaListGrantsOutcome grantsResp fm ft with
    | .errText m => [m]
    | .okGrants egs => [pyJsonDumps (.obj [("entries", .arr (egs.map EnhancedGrant.toJson))])]
    | .okOther fs => [pyJsonDumps (.obj fs)]
  | .unknownTool nm => ["Error: Unknown tool: " ++ nm]

/-! Helper lemmas shared by the claim theorems. -/

theorem listIsPrefixOf_append {α : Type} [BEq α] [LawfulBEq α] (l t : List α) :
    listIsPrefixOf l (l ++ t) = true := by
  induction l with
  | nil => rfl
  | cons a as ih => simp [listIsPrefixOf, ih]

theorem hasErrorPre_append (s : String) : hasErrorPre ("Error: " ++ s) = true := by
  show listIsPrefixOf "Error: ".data ("Error: " ++ s).data = true
  rw [String.data_append]
  exact listIsPrefixOf_append _ _

theorem strAppend_merge (a b c : String) (h : a ++ b = c) (s : String) :
    a ++ (b ++ s) = c ++ s := by
  rw [← String.append_assoc, h]

theorem lookupKey_dictSet_ne {β : Type} (d : List (String × β)) (k k2 : String)
    (v : β) (h : k2 ≠ k) : lookupKey (dictSet d k v) k2 = lookupKey d k2 := by
  induction d with
  | nil =>
    simp [dictSet, lookupKey, beq_eq_false_iff_ne.mpr (Ne.symm h)]
  | cons kv rest ih =>
    by_cases hk : (kv.1 == k) = true
    · have hk1 : kv.1 = k := eq_of_beq hk
      simp [dictSet, hk, lookupKey, hk1, beq_eq_false_iff_ne.mpr (Ne.symm h)]
    · simp only [dictSet, hk]
      by_cases hk2 : (kv.1 == k2) = true
      · simp [lookupKey, hk2]
      · simp only [Bool.not_eq_true] at hk hk2
        simp [lookupKey, hk2, ih]

theorem buildMemberNames_absent (ids : List String) (mid : String)
    (ms : List Member) (acc : List (String × String))
    (h : ∀ m ∈ ms, m.memberId ≠ some mid) :
    lookupKey (buildMemberNames ids ms acc) mid = lookupKey acc mid := by
  induction ms generalizing acc with
  | nil => rfl
  | cons m rest ih =>
    have hm : m.memberId ≠ some mid := h m (List.mem_cons_self m rest)
    have hrest : ∀ m2 ∈ rest, m2.memberId ≠ some mid :=
      fun m2 hm2 => h m2 (List.mem_cons_of_mem m hm2)
    match hmid : m.memberId with
    | none => simp [buildMemberNames, hmid, ih _ hrest]
    | some mid2 =>
      have hne : mid ≠ mid2 := by
        intro he; exact hm (by rw [hmid, he])
      by_cases hin : mid2 ∈ ids
      · simp [buildMemberNames, hmid, hin, ih _ hrest, lookupKey_dictSet_ne _ _ _ _ hne]
      · simp [buildMemberNames, hmid, hin, ih _ hrest]

theorem getAccessToken_exchanges_le_one (st : TokenState) (now : Nat)
    (ex : TokenExchange) : (getAccessToken st now ex).exchanges ≤ 1 := by
  unfold getAccessToken
  split
  · exact Nat.zero_le 1
  · cases ex <;> simp

/-! Claim theorems. -/

/-- C1: for every upstream response with a 2xx status, `make_request`
succeeds and classifies it into exactly one of the four result shapes:
status 204 yields `NotReady` regardless of anything else; otherwise a
`Content-Type` starting with `application/json` yields the parsed JSON
mapping; otherwise a `Content-Type` starting with `text/` yields a text
result recording the byte size of the body; any other `Content-Type`
yields a binary result recording the byte size. -/
theorem c1_response_classification (r : HttpResponse)
    (h2xx : isSuccessStatus r.status = true) :
    makeRequest r = .ok (classifyResponse r) ∧
    (r.status = 204 → classifyResponse r = .notReady) ∧
    (r.status ≠ 204 → strStartsWith r.contentType "application/json" = true →
      classifyResponse r = .jsonBody r.jsonFields) ∧
    (r.status ≠ 204 → strStartsWith r.contentType "application/json" = false →
      strStartsWith r.contentType "text/" = true →
      classifyResponse r = .textBody r.contentType r.text r.contentLength) ∧
    (r.status ≠ 204 → strStartsWith r.contentType "application/json" = false →
      strStartsWith r.contentType "text/" = false →
      classifyResponse r = .binaryBody r.contentType r.contentLength) := by
  refine ⟨by simp [makeRequest, h2xx], ?_, ?_, ?_, ?_⟩
  · intro h; simp [classifyResponse, h]
  · intro h hj; simp [classifyResponse, h, hj]
  · intro h hj ht; simp [classifyResponse, h, hj, ht]
  · intro h hj ht; simp [classifyResponse, h, hj, ht]

/-- Witness for C1: the four classifications at concrete 2xx responses. -/
theorem c1_response_classification_witness :
    makeRequest { status := 204 } = .ok .notReady ∧
    classifyResponse { status := 200, contentType := "application/json", jsonFields := [("a", .num 1)] } = .jsonBody [("a", .num 1)] ∧
    classifyResponse { status := 200, contentType := "text/csv", text := "x,y", contentLength := 3 } = .textBody "text/csv" "x,y" 3 ∧
    classifyResponse { status := 200, contentType := "application/octet-stream", contentLength := 5 } = .binaryBody "application/octet-stream" 5 := by
  refine ⟨?_, ?_, ?_, ?_⟩
  · have h := c1_response_classification { status := 204 } (by decide)
    rw [h.1, h.2.1 rfl]
  · exact (c1_response_classification _ (by decide)).2.2.1 (by decide) (by decide)
  · exact (c1_response_classification _ (by decide)).2.2.2.1 (by decide) (by decide) (by decide)
  · exact (c1_response_classification _ (by decide)).2.2.2.2 (by decide) (by decide) (by decide)

/-- C3: the token manager returns a valid cached token without an
exchange; on a cache miss it performs exactly one exchange, caching the
new token with expiry `now + 55` minutes on success and propagating the
HTTP error with no retry on failure. Consequently two calls within 55
minutes perform at most one exchange in total, and a call at or after
the cached expiry performs a fresh exchange. -/
theorem c3_token_caching (st : TokenState) (now : Nat) (ex : TokenExchange) :
    (hasValidCachedToken st now = true →
      getAccessToken st now ex = ⟨.ok (st.accessToken.getD ""), st, 0⟩) ∧
    (hasValidCachedToken st now = false → ∀ tok, ex = .success tok →
      getAccessToken st now ex = ⟨.ok tok, ⟨some tok, some (now + 55)⟩, 1⟩) ∧
    (hasValidCachedToken st now = false → ∀ s msg, ex = .httpError s msg →
      getAccessToken st now ex = ⟨.error msg, st, 1⟩) ∧
    (∀ (t2 : Nat) (ex2 : TokenExchange) (tk : String),
      (getAccessToken st now ex).result = .ok tk → tk ≠ "" →
      t2 < now + 55 →
      (getAccessToken st now ex).exchanges +
        (getAccessToken (getAccessToken st now ex).state t2 ex2).exchanges ≤ 1) ∧
    (∀ (t2 : Nat) (ex2 : TokenExchange) (tok : String),
      hasValidCachedToken st now = false → ex = .success tok →
      now + 55 ≤ t2 →
      (getAccessToken (getAccessToken st now ex).state t2 ex2).exchanges = 1) := by
  refine ⟨?_, ?_, ?_, ?_, ?_⟩
  · intro hv; simp [getAccessToken, hv]
  · intro hv tok hex; simp [getAccessToken, hv, hex]
  · intro hv s msg hex; simp [getAccessToken, hv, hex]
  · intro t2 ex2 tk hok htk ht2
    by_cases hv : hasValidCachedToken st now = true
    · have h0 : (getAccessToken st now ex).exchanges = 0 := by
        simp [getAccessToken, hv]
      rw [h0, Nat.zero_add]
      exact getAccessToken_exchanges_le_one _ _ _
    · simp only [Bool.not_eq_true] at hv
      cases ex with
      | httpError s msg => simp [getAccessToken, hv] at hok
      | success tok =>
        have htok : tok = tk := by
          simp [getAccessToken, hv] at hok
          exact hok
        have hv2 : hasValidCachedToken ⟨some tok, some (now + 55)⟩ t2 = true := by
          simp [hasValidCachedToken, strTruthy, ht2, htok, htk]
        simp [getAccessToken, hv, hv2]
  · intro t2 ex2 tok hv hex ht2
    have hv2 : hasValidCachedToken ⟨some tok, some (now + 55)⟩ t2 = false := by
      simp [hasValidCachedToken]
      intro _
      omega
    cases ex2 <;> simp [getAccessToken, hv, hex, hv2]

/-- Witness for C3: a concrete run. The first call at minute 0 on an
empty cache exchanges once; the second call at minute 54 is served from
the cache (total one exchange); a third call at minute 55 exchanges
afresh. -/
theorem c3_token_caching_witness :
    (getAccessToken ⟨none, none⟩ 0 (.success "tokA")).exchanges +
      (getAccessToken (getAccessToken ⟨none, none⟩ 0 (.success "tokA")).state 54
        (.success "tokB")).exchanges ≤ 1 ∧
    (getAccessToken (getAccessToken ⟨none, none⟩ 0 (.success "tokA")).state 55
      (.success "tokB")).exchanges = 1 := by
  constructor
  · exact (c3_token_caching ⟨none, none⟩ 0 (.success "tokA")).2.2.2.1 54
      (.success "tokB") "tokA" rfl (by decide) (by decide)
  · exact (c3_token_caching ⟨none, none⟩ 0 (.success "tokA")).2.2.2.2 55
      (.success "tokB") "tokA" (by decide) rfl (by decide)

/-- C4: a 204 upstream response to `sigma_download_export` yields the
single text block "Export is still processing. Please wait a few seconds
and try again.", returned as an ordinary result (in particular without
the `"Error: "` failure prefix). -/
theorem c4_download_not_ready (r : HttpResponse) (h : r.status = 204) :
    sigmaDownloadExport r = [downloadNotReadyText] ∧
    hasErrorPre downloadNotReadyText = false := by
  refine ⟨?_, by decide⟩
  simp [sigmaDownloadExport, makeRequest, isSuccessStatus, h, classifyResponse,
    downloadExportRender]

/-- Witness for C4: the concrete 204 response. -/
theorem c4_download_not_ready_witness :
    sigmaDownloadExport { status := 204 } = [downloadNotReadyText] :=
  (c4_download_not_ready { status := 204 } rfl).1

/-- C8: the upstream path-and-query of `sigma_list_workbooks` is a
function of the argument mapping alone (so two calls with identical
arguments issue the identical path and query string), and the query
serializes the parameters in the fixed order `limit` (default 50) then
`page` (present only when truthy). -/
theorem c8_list_workbooks_deterministic (a : ListWorkbooksArgs) :
    listWorkbooksPath a = listWorkbooksPath a ∧
    listWorkbooksPath a =
      "/v2/workbooks?limit=" ++ toString (a.limit.getD 50) ++
        (if strTruthy a.page then "&page=" ++ a.page.getD "" else "") ∧
    (listWorkbooksParams a).map Prod.fst =
      ["limit"] ++ (if strTruthy a.page then ["page"] else []) := by
  refine ⟨rfl, ?_, ?_⟩
  · by_cases hp : strTruthy a.page = true
    · simp only [listWorkbooksPath, listWorkbooksParams, hp, if_true, joinQuery,
        List.singleton_append, String.append_assoc]
      rw [strAppend_merge "limit" "=" "limit=" (by decide),
        strAppend_merge "/v2/workbooks?" "limit=" "/v2/workbooks?limit=" (by decide),
        strAppend_merge "page" "=" "page=" (by decide),
        strAppend_merge "&" "page=" "&page=" (by decide)]
    · simp only [Bool.not_eq_true] at hp
      simp only [listWorkbooksPath, listWorkbooksParams, hp, if_false, joinQuery,
        List.append_nil, String.append_assoc]
      rw [strAppend_merge "limit" "=" "limit=" (by decide),
        strAppend_merge "/v2/workbooks?" "limit=" "/v2/workbooks?limit=" (by decide)]
      simp
  · by_cases hp : strTruthy a.page = true <;> simp [listWorkbooksParams, hp]

/-- C2: the export mode is inferred solely from which identifier is
present (truthy, mirroring the `if element_id:` test of the source):
`element_id` wins, then `page_id`, else workbook mode; and in page or
workbook mode a csv/json/jsonl format is rejected with the descriptive
validation message, with no request submitted. -/
theorem c2_export_mode_validation (a : ExportArgs) :
    (strTruthy a.element_id = true → exportMode a = "element") ∧
    (strTruthy a.element_id = false → strTruthy a.page_id = true →
      exportMode a = "page") ∧
    (strTruthy a.element_id = false → strTruthy a.page_id = false →
      exportMode a = "workbook") ∧
    (∀ wid, (exportMode a = "page" ∨ exportMode a = "workbook") →
      (exportFormatType a = "csv" ∨ exportFormatType a = "json" ∨
        exportFormatType a = "jsonl") →
      exportAction wid a =
        .blocked (exportValidationMsg (exportMode a) (exportFormatType a))) := by
  refine ⟨?_, ?_, ?_, ?_⟩
  · intro he; simp [exportMode, he]
  · intro he hp; simp [exportMode, he, hp]
  · intro he hp; simp [exportMode, he, hp]
  · intro wid hm hf
    have h1 : (exportMode a == "page" || exportMode a == "workbook") = true := by
      rcases hm with h | h <;> simp [h]
    have h2 : (exportFormatType a == "csv" || exportFormatType a == "json" ||
        exportFormatType a == "jsonl") = true := by
      rcases hf with h | h | h <;> simp [h]
    simp [exportAction, h1, h2]

/-- Witness for C2: element mode with a truthy `element_id`, and a
blocked workbook-mode csv request. -/
theorem c2_export_mode_validation_witness :
    exportMode { workbook_id := some "wb", element_id := some "el" } = "element" ∧
    exportAction "wb" { workbook_id := some "wb", format_type := some "csv" } =
      .blocked (exportValidationMsg "workbook" "csv") := by
  constructor
  · exact (c2_export_mode_validation _).1 (by decide)
  · exact (c2_export_mode_validation
      { workbook_id := some "wb", format_type := some "csv" }).2.2.2 "wb"
      (Or.inr rfl) (Or.inl rfl)

/-- C7: shape of the submitted format object and payload: `pdf` carries
a `layout` defaulting to landscape; `png` carries `pixelWidth` /
`pixelHeight` exactly when the corresponding argument is given (truthy,
mirroring the `if arguments.get(...)` test of the source); every other format
carries only `type`; and `rowLimit` / `offset` are present exactly when
supplied (truthy) in element mode — in particular their presence implies
element mode. -/
theorem c7_export_payload_shape (a : ExportArgs) :
    (exportFormatType a = "pdf" →
      exportFormatObj a =
        [("type", .str "pdf"), ("layout", .str (a.pdf_layout.getD "landscape"))]) ∧
    (exportFormatType a = "png" →
      lookupKey (exportFormatObj a) "pixelWidth" =
        (if intTruthy a.png_width then some (.num (a.png_width.getD 0)) else none) ∧
      lookupKey (exportFormatObj a) "pixelHeight" =
        (if intTruthy a.png_height then some (.num (a.png_height.getD 0)) else none)) ∧
    (exportFormatType a ≠ "pdf" → exportFormatType a ≠ "png" →
      exportFormatObj a = [("type", .str (exportFormatType a))]) ∧
    (lookupKey (exportPayload a) "rowLimit" =
      (if strTruthy a.element_id && intTruthy a.row_limit then
        some (.num (a.row_limit.getD 0)) else none)) ∧
    (lookupKey (exportPayload a) "offset" =
      (if strTruthy a.element_id && intTruthy a.offset then
        some (.num (a.offset.getD 0)) else none)) ∧
    ((lookupKey (exportPayload a) "rowLimit").isSome →
      intTruthy a.row_limit = true ∧ exportMode a = "element") ∧
    ((lookupKey (exportPayload a) "offset").isSome →
      intTruthy a.offset = true ∧ exportMode a = "element") := by
  have hrow : lookupKey (exportPayload a) "rowLimit" =
      (if strTruthy a.element_id && intTruthy a.row_limit then
        some (.num (a.row_limit.getD 0)) else none) := by
    by_cases he : strTruthy a.element_id = true <;>
      by_cases hp : strTruthy a.page_id = true <;>
      by_cases hr : intTruthy a.row_limit = true <;>
      by_cases ho : intTruthy a.offset = true <;>
      simp [exportPayload, lookupKey, he, hp, hr, ho]
  have hoff : lookupKey (exportPayload a) "offset" =
      (if strTruthy a.element_id && intTruthy a.offset then
        some (.num (a.offset.getD 0)) else none) := by
    by_cases he : strTruthy a.element_id = true <;>
      by_cases hp : strTruthy a.page_id = true <;>
      by_cases hr : intTruthy a.row_limit = true <;>
      by_cases ho : intTruthy a.offset = true <;>
      simp [exportPayload, lookupKey, he, hp, hr, ho]
  refine ⟨?_, ?_, ?_, hrow, hoff, ?_, ?_⟩
  · intro hf; simp [exportFormatObj, hf]
  · intro hf
    constructor <;>
      (by_cases hw : intTruthy a.png_width = true <;>
        by_cases hh : intTruthy a.png_height = true <;>
        simp [exportFormatObj, hf, hw, hh, lookupKey])
  · intro hp hn
    have hp2 : (exportFormatType a == "pdf") = false := by
      simp [hp]
    have hn2 : (exportFormatType a == "png") = false := by
      simp [hn]
    simp [exportFormatObj, hp2, hn2]
  · intro hs
    rw [hrow] at hs
    by_cases he : strTruthy a.element_id = true <;>
      by_cases hr : intTruthy a.row_limit = true <;>
      simp [he, hr, exportMode] at hs ⊢
  · intro hs
    rw [hoff] at hs
    by_cases he : strTruthy a.element_id = true <;>
      by_cases ho : intTruthy a.offset = true <;>
      simp [he, ho, exportMode] at hs ⊢

/-- Witness for C7: a pdf format object, a png format object with only a
width, and an element-mode csv payload with a supplied row limit. -/
theorem c7_export_payload_shape_witness :
    exportFormatObj { workbook_id := some "w" } =
      [("type", .str "pdf"), ("layout", .str "landscape")] ∧
    lookupKey (exportFormatObj { workbook_id := some "w", format_type := some "png", png_width := some 800 }) "pixelWidth" = some (.num 800) ∧
    lookupKey (exportPayload { workbook_id := some "w", element_id := some "el", format_type := some "csv", row_limit := some 100 }) "rowLimit" = some (.num 100) ∧
    lookupKey (exportPayload { workbook_id := some "w", element_id := some "el", format_type := some "csv", row_limit := some 100 }) "offset" = none := by
  refine ⟨?_, ?_, ?_, ?_⟩
  · exact (c7_export_payload_shape _).1 rfl
  · have h := ((c7_export_payload_shape
      { workbook_id := some "w", format_type := some "png", png_width := some 800 }).2.1 rfl).1
    simpa using h
  · have h := (c7_export_payload_shape
      { workbook_id := some "w", element_id := some "el", format_type := some "csv", row_limit := some 100 }).2.2.2.1
    simpa using h
  · have h := (c7_export_payload_shape
      { workbook_id := some "w", element_id := some "el", format_type := some "csv", row_limit := some 100 }).2.2.2.2.1
    simpa using h

/-- C9: a grant supplying both `member_id` and `team_id` (truthy) does
not fail validation: its grantee is built from `member_id` alone
(checked first) and the `team_id` is silently dropped; a grant supplying
neither yields the JSON error text with no upstream call (the rendered
result is independent of the upstream outcome). -/
theorem c9_grant_precedence (g : GrantInput) (rest : List GrantInput) (p : String)
    (hperm : g.permission = some p) :
    (strTruthy g.member_id = true → strTruthy g.team_id = true →
      grantGrantee g = [("memberId", .str (g.member_id.getD ""))] ∧
      lookupKey (grantGrantee g) "teamId" = none ∧
      buildGrantsPayload (g :: rest) =
        (match buildGrantsPayload rest with
         | .built ps => .built (grantObjOf g p :: ps)
         | e => e)) ∧
    (strTruthy g.member_id = false → strTruthy g.team_id = false →
      buildGrantsPayload (g :: rest) = .granteeError ∧
      ∀ wid up, sigmaGrantPermissions wid (g :: rest) up = [grantErrorJsonText]) := by
  constructor
  · intro hm ht
    refine ⟨by simp [grantGrantee, hm], by simp [grantGrantee, hm, lookupKey], ?_⟩
    simp [buildGrantsPayload, hperm, hm]
  · intro hm ht
    have hb : buildGrantsPayload (g :: rest) = .granteeError := by
      simp [buildGrantsPayload, hperm, hm, ht]
    exact ⟨hb, fun wid up => by simp [sigmaGrantPermissions, hb]⟩

/-- Witness for C9: a concrete grant carrying both ids is forwarded with
`memberId` alone, and a concrete grant carrying neither produces the
JSON error text for any upstream outcome. -/
theorem c9_grant_precedence_witness :
    grantGrantee { member_id := some "m1", team_id := some "t1", permission := some "view" } = [("memberId", .str "m1")] ∧
    buildGrantsPayload [{ member_id := some "m1", team_id := some "t1", permission := some "view" }] =
      .built [grantObjOf { member_id := some "m1", team_id := some "t1", permission := some "view" } "view"] ∧
    sigmaGrantPermissions "wb" [{ permission := some "view" }] (.ok (.jsonBody [])) = [grantErrorJsonText] := by
  have h1 := (c9_grant_precedence
    { member_id := some "m1", team_id := some "t1", permission := some "view" }
    [] "view" rfl).1 (by decide) (by decide)
  have h2 := (c9_grant_precedence { permission := some "view" } [] "view" rfl).2
    (by decide) (by decide)
  exact ⟨h1.1, h1.2.2, h2.2 "wb" (.ok (.jsonBody []))⟩

/-- C10: at most one of the three `sigma_list_grants` filters is
forwarded, by the fixed precedence workbook (`inodeId`) over user
(`userId`) over team (`teamId`); lower-precedence filters are dropped
from the query and no filter parameter is sent when none is given
(presence being the truthiness test of the source). -/
theorem c10_list_grants_filter (a : ListGrantsArgs) :
    (strTruthy a.workbook_id = true →
      listGrantsFilterParams a = [("inodeId", a.workbook_id.getD "")]) ∧
    (strTruthy a.workbook_id = false → strTruthy a.user_id = true →
      listGrantsFilterParams a = [("userId", a.user_id.getD "")]) ∧
    (strTruthy a.workbook_id = false → strTruthy a.user_id = false →
      strTruthy a.team_id = true →
      listGrantsFilterParams a = [("teamId", a.team_id.getD "")]) ∧
    (strTruthy a.workbook_id = false → strTruthy a.user_id = false →
      strTruthy a.team_id = false → listGrantsFilterParams a = []) ∧
    (listGrantsFilterParams a).length ≤ 1 ∧
    (strTruthy a.workbook_id = true →
      lookupKey (listGrantsParams a) "userId" = none ∧
      lookupKey (listGrantsParams a) "teamId" = none) ∧
    (strTruthy a.user_id = true →
      lookupKey (listGrantsParams a) "teamId" = none) := by
  have hlen : (listGrantsFilterParams a).length ≤ 1 := by
    by_cases hw : strTruthy a.workbook_id = true <;>
      by_cases hu : strTruthy a.user_id = true <;>
      by_cases ht : strTruthy a.team_id = true <;>
      simp [listGrantsFilterParams, hw, hu, ht]
  refine ⟨?_, ?_, ?_, ?_, hlen, ?_, ?_⟩
  · intro hw; simp [listGrantsFilterParams, hw]
  · intro hw hu; simp [listGrantsFilterParams, hw, hu]
  · intro hw hu ht; simp [listGrantsFilterParams, hw, hu, ht]
  · intro hw hu ht; simp [listGrantsFilterParams, hw, hu, ht]
  · intro hw
    constructor <;>
      (by_cases hp : strTruthy a.page = true <;>
        by_cases hd : boolTruthy a.direct_grants_only = true <;>
        simp [listGrantsParams, listGrantsFilterParams, hw, hp, hd, lookupKey])
  · intro hu
    by_cases hw : strTruthy a.workbook_id = true <;>
      by_cases hp : strTruthy a.page = true <;>
      by_cases hd : boolTruthy a.direct_grants_only = true <;>
      simp [listGrantsParams, listGrantsFilterParams, hw, hu, hp, hd, lookupKey]

/-- Witness for C10: with both `workbook_id` and `user_id` supplied, only
`inodeId` is forwarded and `userId` is absent from the query. -/
theorem c10_list_grants_filter_witness :
    listGrantsFilterParams { workbook_id := some "w1", user_id := some "u1" } =
      [("inodeId", "w1")] ∧
    lookupKey (listGrantsParams { workbook_id := some "w1", user_id := some "u1" })
      "userId" = none := by
  have h := c10_list_grants_filter { workbook_id := some "w1", user_id := some "u1" }
  exact ⟨h.1 (by decide), (h.2.2.2.2.2.1 (by decide)).1⟩

/-- C5: every grant with a (truthy) `memberId` is annotated with
`memberName`, falling back to the not-found placeholder when the id is
absent from the members fetch; every grant with a (truthy) `teamId` and
no `memberId` (the two are mutually exclusive in the grant data model)
is annotated with `teamName` with its placeholder fallback; the two
secondary fetches are issued at the fixed limit-1000 endpoints and a
failure of either never fails the overall call — the (fallback-named)
grants are still returned. -/
theorem c5_grant_name_resolution (entries : List GrantEntry)
    (mf : Except UpstreamError (List Member))
    (tf : Except UpstreamError (List Team)) :
    (∀ (fm : String → Except UpstreamError (List Member))
        (ft : String → Except UpstreamError (List Team)) (resp : GrantsResponse),
      resp.entries = some entries →
      sigmaListGrantsOutcome (.ok resp) fm ft =
        .okGrants (listGrantsEnhance entries (fm membersFetchEndpoint)
          (ft teamsFetchEndpoint))) ∧
    membersFetchEndpoint = "/v2/members?limit=1000" ∧
    teamsFetchEndpoint = "/v2.1/teams?limit=1000" ∧
    listGrantsEnhance entries mf tf =
      entries.map (enhanceGrant (grantsMemberNames entries mf)
        (grantsTeamNames entries tf)) ∧
    (∀ g : GrantEntry, strTruthy g.memberId = true →
      (enhanceGrant (grantsMemberNames entries mf) (grantsTeamNames entries tf)
          g).memberName =
        some ((lookupKey (grantsMemberNames entries mf)
          (g.memberId.getD "")).getD memberNotFoundText)) ∧
    (∀ (g : GrantEntry) (ms : List Member), strTruthy g.memberId = true →
      mf = .ok ms → (∀ m ∈ ms, m.memberId ≠ g.memberId) →
      (enhanceGrant (grantsMemberNames entries mf) (grantsTeamNames entries tf)
          g).memberName = some memberNotFoundText) ∧
    (∀ g : GrantEntry, strTruthy g.memberId = false → strTruthy g.teamId = true →
      (enhanceGrant (grantsMemberNames entries mf) (grantsTeamNames entries tf)
          g).teamName =
        some ((lookupKey (grantsTeamNames entries tf)
          (g.teamId.getD "")).getD teamNotFoundText)) ∧
    (∀ (g : GrantEntry) (e : UpstreamError), strTruthy g.memberId = true →
      mf = .error e →
      (enhanceGrant (grantsMemberNames entries mf) (grantsTeamNames entries tf)
          g).memberName = some memberNotFoundText) := by
  refine ⟨?_, rfl, rfl, rfl, ?_, ?_, ?_, ?_⟩
  · intro fm ft resp hresp
    simp [sigmaListGrantsOutcome, hresp]
  · intro g hg
    simp [enhanceGrant, hg]
  · intro g ms hg hmf habs
    subst hmf
    have hmid : ∃ mid, g.memberId = some mid := by
      cases hgm : g.memberId with
      | none => rw [hgm] at hg; simp [strTruthy] at hg
      | some mid => exact ⟨mid, rfl⟩
    obtain ⟨mid, hgm⟩ := hmid
    have hgd : g.memberId.getD "" = mid := by rw [hgm]; rfl
    have habs2 : ∀ m ∈ ms, m.memberId ≠ some mid := by
      intro m hm
      have h2 := habs m hm
      rw [hgm] at h2
      exact h2
    have hlook : lookupKey (grantsMemberNames entries (.ok ms)) mid = none := by
      by_cases hempty : ((collectGrantIds entries).1).isEmpty = true
      · simp [grantsMemberNames, hempty, lookupKey]
      · simp only [Bool.not_eq_true] at hempty
        simp [grantsMemberNames, hempty,
          buildMemberNames_absent (collectGrantIds entries).1 mid ms [] habs2,
          lookupKey]
    simp [enhanceGrant, hg, hgd, hlook]
  · intro g hgm hgt
    simp [enhanceGrant, hgm, hgt]
  · intro g e hg hmf
    subst hmf
    have hlook : lookupKey (grantsMemberNames entries (.error e))
        (g.memberId.getD "") = none := by
      by_cases hempty : ((collectGrantIds entries).1).isEmpty = true <;>
        simp [grantsMemberNames, hempty, lookupKey]
    simp [enhanceGrant, hg, hlook]

/-- Witness for C5: a grant whose `memberId` is absent from the fetched
members receives the not-found placeholder, a team grant with a failed
teams fetch receives the team placeholder, and the call still succeeds
when the members fetch fails. -/
theorem c5_grant_name_resolution_witness :
    (enhanceGrant
        (grantsMemberNames [{ memberId := some "m1" }] (.ok [{ memberId := some "m2", email := some "a@b.c" }]))
        (grantsTeamNames [{ memberId := some "m1" }] (.ok []))
        { memberId := some "m1" }).memberName = some memberNotFoundText ∧
    (enhanceGrant
        (grantsMemberNames [{ teamId := some "t1" }] (.error ⟨500, "boom"⟩))
        (grantsTeamNames [{ teamId := some "t1" }] (.error ⟨500, "boom"⟩))
        { teamId := some "t1" }).teamName = some teamNotFoundText ∧
    sigmaListGrantsOutcome (.ok { entries := some [{ memberId := some "m1" }] })
        (fun _ => .error ⟨500, "boom"⟩) (fun _ => .ok []) =
      .okGrants (listGrantsEnhance [{ memberId := some "m1" }]
        (.error ⟨500, "boom"⟩) (.ok [])) := by
  refine ⟨?_, ?_, ?_⟩
  · exact (c5_grant_name_resolution [{ memberId := some "m1" }]
      (.ok [{ memberId := some "m2", email := some "a@b.c" }]) (.ok [])).2.2.2.2.2.1
      { memberId := some "m1" } [{ memberId := some "m2", email := some "a@b.c" }]
      (by decide) rfl (by decide)
  · have h := (c5_grant_name_resolution [{ teamId := some "t1" }]
      (.error ⟨500, "boom"⟩) (.error ⟨500, "boom"⟩)).2.2.2.2.2.2.1
      { teamId := some "t1" } (by decide) (by decide)
    rw [h]
    rfl
  · exact (c5_grant_name_resolution [{ memberId := some "m1" }]
      (.error ⟨500, "boom"⟩) (.ok [])).1 (fun _ => .error ⟨500, "boom"⟩)
      (fun _ => .ok []) { entries := some [{ memberId := some "m1" }] } rfl

theorem downloadExportRender_singleton (res : RequestResult) :
    (downloadExportRender res).length = 1 := by
  cases res with
  | notReady => rfl
  | jsonBody fs =>
    simp only [downloadExportRender]
    by_cases h : statusIsNotReady fs = true
    · simp [h]
    · simp only [Bool.not_eq_true] at h
      simp only [h, Bool.false_eq_true, if_false]
      cases hl : lookupKey fs "data" with
      | none => simp [hl]
      | some j => cases j <;> simp only [hl] <;> first | (split <;> rfl) | rfl
  | textBody ct body size =>
    simp only [downloadExportRender]
    split <;> rfl
  | binaryBody ct size => rfl

theorem handleCallTool_singleton (c : ToolCall) : (handleCallTool c).length = 1 := by
  cases c with
  | listWorkbooks a up =>
    cases up with
    | error e => rfl
    | ok res => cases res <;> rfl
  | exportWorkbook a up =>
    cases hw : a.workbook_id with
    | none => simp [handleCallTool, hw]
    | some wid =>
      simp only [handleCallTool, hw]
      cases hact : exportAction wid a with
      | blocked m => simp [hact]
      | submit pth pay =>
        simp only [hact]
        cases up with
        | error e => rfl
        | ok res => cases res <;> rfl
  | downloadExport qid resp =>
    cases qid with
    | none => rfl
    | some q =>
      simp only [handleCallTool, sigmaDownloadExport]
      cases hm : makeRequest resp with
      | error e => simp [hm]
      | ok res => simp [hm, downloadExportRender_singleton res]
  | grantPermissions wid grants up =>
    cases wid with
    | none => rfl
    | some w =>
      cases grants with
      | none => rfl
      | some gs =>
        simp only [handleCallTool, sigmaGrantPermissions]
        cases hb : buildGrantsPayload gs with
        | keyError k => simp [hb]
        | granteeError => simp [hb]
        | built ps => cases up <;> simp [hb]
  | listGrants a gr fm ft =>
    cases gr with
    | error e => rfl
    | ok resp =>
      simp only [handleCallTool, sigmaListGrantsOutcome]
      cases hre : resp.entries <;> simp [hre]
  | unknownTool nm => rfl

theorem hasErrorPre_validationMsg (m f : String) :
    hasErrorPre (exportValidationMsg m f) = true := by
  have h : exportValidationMsg m f =
      "Error: " ++ (m.capitalize ++
        (" exports only support pdf, png, or xlsx formats. Use element_id for "
          ++ (f ++ " data exports."))) := by
    simp [exportValidationMsg, String.append_assoc]
  rw [h]
  exact hasErrorPre_append _

/-- C6 counterexample: the claim that every failure outcome is rendered
as text beginning with "Error: " is false on the source. The
`sigma_grant_permissions` validation failure for a grant carrying
neither `member_id` nor `team_id` is rendered as a pretty-printed JSON
object, which does not begin with the prefix. -/
theorem c6_error_prefix_cex :
    handleCallTool (.grantPermissions (some "wb1")
      (some [{ permission := some "view" }]) (.ok (.jsonBody []))) =
      [grantErrorJsonText] ∧
    grantErrorJsonText =
      "\x7b\n  \"error\": \"Each grant must specify either member_id or team_id\"\n\x7d" ∧
    hasErrorPre grantErrorJsonText = false := by
  refine ⟨rfl, rfl, by decide⟩

/-- C6 (amended): every tool call returns exactly one text content
block and the dispatcher keeps serving subsequent calls; every failure
outcome — missing required argument, invalid mode/format combination,
upstream non-2xx — is rendered as text with the `"Error: "` prefix,
with the single exception of the `sigma_grant_permissions` grantee
validation failure, which is rendered as a JSON object with an `error`
field and no prefix. -/
theorem c6_single_block_error_prefix (c : ToolCall) :
    (handleCallTool c).length = 1 ∧
    (∀ cs : List ToolCall, (cs.map handleCallTool).length = cs.length) ∧
    (∀ a e, c = .listWorkbooks a (.error e) →
      hasErrorPre ((handleCallTool c).headD "") = true) ∧
    (∀ a up, c = .exportWorkbook a up → a.workbook_id = none →
      handleCallTool c = ["Error: \x27workbook_id\x27"]) ∧
    (∀ a wid up msg, c = .exportWorkbook a up → a.workbook_id = some wid →
      exportAction wid a = .blocked msg →
      handleCallTool c = [msg] ∧ hasErrorPre msg = true) ∧
    (∀ a wid e pth pay, c = .exportWorkbook a (.error e) →
      a.workbook_id = some wid → exportAction wid a = .submit pth pay →
      hasErrorPre ((handleCallTool c).headD "") = true) ∧
    (∀ resp, c = .downloadExport none resp →
      handleCallTool c = ["Error: \x27query_id\x27"]) ∧
    (∀ resp q, c = .downloadExport (some q) resp →
      isSuccessStatus resp.status = false →
      hasErrorPre ((handleCallTool c).headD "") = true) ∧
    (∀ grants up, c = .grantPermissions none grants up →
      handleCallTool c = ["Error: \x27workbook_id\x27"]) ∧
    (∀ w up, c = .grantPermissions (some w) none up →
      handleCallTool c = ["Error: \x27grants\x27"]) ∧
    (∀ w gs up k, c = .grantPermissions (some w) (some gs) up →
      buildGrantsPayload gs = .keyError k →
      handleCallTool c = ["Error: " ++ k] ∧
      hasErrorPre ((handleCallTool c).headD "") = true) ∧
    (∀ w gs up, c = .grantPermissions (some w) (some gs) up →
      buildGrantsPayload gs = .granteeError →
      handleCallTool c = [grantErrorJsonText]) ∧
    (∀ w gs e ps, c = .grantPermissions (some w) (some gs) (.error e) →
      buildGrantsPayload gs = .built ps →
      hasErrorPre ((handleCallTool c).headD "") = true) ∧
    (∀ a e fm ft, c = .listGrants a (.error e) fm ft →
      hasErrorPre ((handleCallTool c).headD "") = true) ∧
    (∀ nm, c = .unknownTool nm →
      handleCallTool c = ["Error: Unknown tool: " ++ nm]) := by
  refine ⟨handleCallTool_singleton c, fun cs => by simp, ?_, ?_, ?_, ?_, ?_, ?_,
    ?_, ?_, ?_, ?_, ?_, ?_, ?_⟩
  · intro a e hc
    subst hc
    simpa [handleCallTool] using hasErrorPre_append e.message
  · intro a up hc hwid
    subst hc
    simp [handleCallTool, hwid]
  · intro a wid up msg hc hwid hact
    subst hc
    have hmsg : msg = exportValidationMsg (exportMode a) (exportFormatType a) := by
      unfold exportAction at hact
      split at hact
      · exact (ExportAction.blocked.inj hact).symm
      · exact absurd hact (by simp)
    refine ⟨by simp [handleCallTool, hwid, hact], ?_⟩
    rw [hmsg]
    exact hasErrorPre_validationMsg _ _
  · intro a wid e pth pay hc hwid hact
    subst hc
    simpa [handleCallTool, hwid, hact] using hasErrorPre_append e.message
  · intro resp hc
    subst hc
    rfl
  · intro resp q hc hstatus
    subst hc
    simpa [handleCallTool, sigmaDownloadExport, makeRequest, hstatus] using
      hasErrorPre_append resp.errMessage
  · intro grants up hc
    subst hc
    rfl
  · intro w up hc
    subst hc
    rfl
  · intro w gs up k hc hb
    subst hc
    have h1 : handleCallTool (.grantPermissions (some w) (some gs) up) =
        ["Error: " ++ k] := by
      simp [handleCallTool, sigmaGrantPermissions, hb]
    exact ⟨h1, by simpa [h1] using hasErrorPre_append k⟩
  · intro w gs up hc hb
    subst hc
    simp [handleCallTool, sigmaGrantPermissions, hb]
  · intro w gs e ps hc hb
    subst hc
    simpa [handleCallTool, sigmaGrantPermissions, hb] using
      hasErrorPre_append e.message
  · intro a e fm ft hc
    subst hc
    simpa [handleCallTool, sigmaListGrantsOutcome] using
      hasErrorPre_append e.message
  · intro nm hc
    subst hc
    rfl

/-- Witness for C6 (amended): concrete calls — an unknown tool and a
missing required argument — each give one text block with the prefix. -/
theorem c6_single_block_error_prefix_witness :
    (handleCallTool (.unknownTool "bogus")).length = 1 ∧
    handleCallTool (.unknownTool "bogus") = ["Error: Unknown tool: bogus"] ∧
    handleCallTool (.exportWorkbook {} (.ok (.jsonBody []))) =
      ["Error: \x27workbook_id\x27"] := by
  have h := c6_single_block_error_prefix (.unknownTool "bogus")
  have h2 := c6_single_block_error_prefix (.exportWorkbook {} (.ok (.jsonBody [])))
  exact ⟨h.1, h.2.2.2.2.2.2.2.2.2.2.2.2.2.2 "bogus" rfl,
    h2.2.2.2.1 {} (.ok (.jsonBody [])) rfl rfl⟩
